import Mathlib

/-!
Verification of the MaisokuAI backend (src/backend/main.py) against its
natural-language specification.  The tiered-authentication core, the
personalization decision, the prompt composers and the two analysis
orchestrators are embedded shallowly: external collaborators (Firebase
token verification, the Gemini generation call, the Google Maps client,
the Firestore write) are explicit parameters, and each endpoint returns
both its HTTP-level outcome and the number of calls made to the external
generation provider.
-/

namespace Maisoku

/-! ## Elementary string machinery

Executable pattern search over character lists, used to state where the
rendered prompts carry which fragments.  `chunkLeads pat xs` holds when
`pat` is an initial segment of `xs`; `chunkInside pat xs` when `pat`
occurs contiguously somewhere in `xs`. -/

def chunkLeads : List Char → List Char → Bool
  | [], _ => true
  | _ :: _, [] => false
  | a :: as, b :: bs => a == b && chunkLeads as bs

def chunkInside (pat : List Char) : List Char → Bool
  | [] => chunkLeads pat []
  | b :: bs => chunkLeads pat (b :: bs) || chunkInside pat bs

/-- `strContains s t`: the string `t` occurs contiguously in `s`. -/
def strContains (s t : String) : Bool := chunkInside t.data s.data

/-- `strLeads s t`: the string `s` starts with `t`. -/
def strLeads (s t : String) : Bool := chunkLeads t.data s.data

/-- `strEnds s t`: the string `s` ends with `t`. -/
def strEnds (s t : String) : Bool := chunkLeads t.data.reverse s.data.reverse

/-! ## Data model

`UserPreferences`, the request bodies and the response envelope are the
pydantic models of src/backend/main.py.  Weights are naturals; the
pydantic bounds (`ge=1, le=5`) become the predicate `validPrefs`.
External failure channels (a raised exception, a provider outage) are
explicit values. -/

structure UserPreferences where
  transportation_priority : Nat
  facilities_priority : Nat
  lifestyle_priority : Nat
  budget_priority : Nat
  specific_facilities : List String
  transportation_types : List String
deriving DecidableEq, Repr

/-- The pydantic field validators: every weight lies in the range 1..5. -/
def validPrefs (p : UserPreferences) : Prop :=
  1 ≤ p.transportation_priority ∧ p.transportation_priority ≤ 5 ∧
  1 ≤ p.facilities_priority ∧ p.facilities_priority ≤ 5 ∧
  1 ≤ p.lifestyle_priority ∧ p.lifestyle_priority ≤ 5 ∧
  1 ≤ p.budget_priority ∧ p.budget_priority ≤ 5

instance (p : UserPreferences) : Decidable (validPrefs p) := by
  unfold validPrefs; infer_instance

/-- A decoded Firebase ID token: the claims dict, of which the orchestrators
use only the uid. -/
structure Identity where
  uid : String
deriving DecidableEq, Repr

/-- A raised `DetailedHTTPException`: HTTP status, `error_type` tag and
`detail` message. -/
structure ApiError where
  status : Nat
  error_type : String
  detail : String
deriving DecidableEq, Repr

structure CameraAnalysisRequest where
  image : String
  preferences : Option UserPreferences
deriving DecidableEq, Repr

structure AreaAnalysisRequest where
  address : String
  preferences : Option UserPreferences
deriving DecidableEq, Repr

/-- The `AnalysisResponse` envelope.  `processing_time` and `timestamp`
are whatever the clock supplied; `metadata_user_id` is the `user_id`
entry of the metadata dict. -/
structure AnalysisResponse where
  analysis : String
  processing_time : Nat
  is_personalized : Bool
  timestamp : String
  metadata_user_id : Option String
deriving DecidableEq, Repr

/-- Process-wide configuration and the external collaborators, resolved
once at startup: availability flags, the Firebase verifier
(`auth.verify_id_token` composed with the uid lookup; `.error` is a
raised exception), and the base64 decoder (`none` is a raised decode
exception, `some n` a successful decode to `n` bytes). -/
structure Env where
  firebase_available : Bool
  db_present : Bool
  vertex_ai_available : Bool
  model_present : Bool
  google_maps_api_key : Bool
  verifier : String → Except String Identity
  b64decode : String → Option Nat

/-! ## Tiered authentication (src/backend/main.py lines 324-390) -/

/-- `verify_firebase_token`: mandatory verification of an already
extracted bearer token. -/
def verify_firebase_token (env : Env) (token : String) : Except ApiError Identity :=
  if !env.firebase_available then
    .error ⟨503, "ServiceUnavailable", "Firebase service unavailable"⟩
  else
    match env.verifier token with
    | .ok d => .ok d
    | .error _ => .error ⟨401, "AuthenticationError", "Invalid authentication token"⟩

/-- Modelled from the spec: the credential-extraction gate in front of
`verify_firebase_token` is the FastAPI `HTTPBearer` security dependency,
which is not part of src/backend/main.py.  Per the spec (sections 4.2,
6 and 8), on mandatory-auth endpoints an absent credential is itself an
error: `requireAuth(None)` always fails with the `AuthMissing` kind and
the 401 status before token verification runs; a present credential is
handed to `verify_firebase_token`. -/
def requireAuth (env : Env) (credential : Option String) : Except ApiError Identity :=
  match credential with
  | none => .error ⟨401, "AuthMissing", "Not authenticated"⟩
  | some t => verify_firebase_token env t

/-- `get_optional_auth`: tiered (optional) authentication over the raw
`authorization` value.  An absent or empty value, Firebase being
unavailable, a value not using the `Bearer` scheme, and any verifier
failure all yield `none`. -/
def get_optional_auth (env : Env) (authorization : Option String) : Option Identity :=
  match authorization with
  | none => none
  | some a =>
    if a = "" || !env.firebase_available then none
    else if strLeads a "Bearer " then
      match env.verifier (a.drop 7) with
      | .ok d => some d
      | .error _ => none
    else none

/-! ## Prompt composers (src/backend/main.py lines 618-695)

The f-strings of `GeminiService` become explicit concatenations; every
literal fragment is transcribed verbatim, including the two trailing
blanks on the camera facilities line. -/

def cameraBasePrompt : String :=
  "\nこの不動産チラシの画像を詳しく分析してください。\n\n分析項目：\n1. 間取り・部屋の構造\n2. 設備・仕様（キッチン、バス、トイレ、収納等）\n3. 内装・状態（壁紙、床材、清潔さ等）\n4. 採光・通風\n5. 住みやすさの総合評価\n\n"

/-- `_create_camera_analysis_prompt` -/
def «_create_camera_analysis_prompt» (preferences : Option UserPreferences) : String :=
  match preferences with
  | some p =>
      cameraBasePrompt ++
      ("\n【個人化分析】\nユーザーの好み設定：\n- 交通利便性重要度: " ++
        toString p.transportation_priority ++
        "/5\n- 周辺施設重要度: " ++ toString p.facilities_priority ++
        "/5  \n- ライフスタイル重要度: " ++ toString p.lifestyle_priority ++
        "/5\n- 予算重要度: " ++ toString p.budget_priority ++
        "/5\n\nこの好み設定を考慮して、「あなたの価値観に合った」観点から物件を評価してください。\n")
  | none =>
      cameraBasePrompt ++ "\n一般的な観点から客観的に分析してください。"

/-- `_create_area_analysis_prompt_basic` -/
def «_create_area_analysis_prompt_basic» (address : String) : String :=
  "\n住所「" ++ address ++
  "」の住環境を客観的に分析してください。\n\n分析項目：\n1. 交通アクセス（最寄り駅、バス路線、主要エリアへのアクセス）\n2. 生活施設（スーパー、コンビニ、銀行、郵便局）\n3. 医療・教育施設（病院、学校、図書館）\n4. 商業・娯楽施設（商業施設、レストラン、公園）\n5. 治安・環境（住宅地の特徴、騒音レベル）\n6. 総合住みやすさ評価\n\n一般的な住民の視点で、客観的で分かりやすい分析をお願いします。\n"

/-- The inline conditional of the four personalized area lines:
Python `'(最重要)' if priority >= 4 else ''`. -/
def areaFlag (w : Nat) : String :=
  if 4 ≤ w then "(最重要)" else ""

/-- One category line of the personalized-area preference block:
Python f-string fragment `- LABEL: {w}/5 {flag}` plus its newline. -/
def areaPriorityLine (label : String) (w : Nat) : String :=
  "- " ++ label ++ ": " ++ toString w ++ "/5 " ++ areaFlag w ++ "\n"

/-- The initial `preference_text` f-string: the header and the four
weight-category lines. -/
def areaFourLines (p : UserPreferences) : String :=
  "\n【あなた専用の個人化分析】\nあなたの重視する要素：\n" ++
  areaPriorityLine "交通利便性" p.transportation_priority ++
  areaPriorityLine "周辺施設" p.facilities_priority ++
  areaPriorityLine "ライフスタイル" p.lifestyle_priority ++
  areaPriorityLine "予算" p.budget_priority

/-- The line appended when `specific_facilities` is truthy (non-empty). -/
def areaFacilitiesLine (p : UserPreferences) : String :=
  "- 特に重視する施設: " ++ String.intercalate ", " p.specific_facilities ++ "\n"

/-- The line appended when `transportation_types` is truthy (non-empty). -/
def areaTransportLine (p : UserPreferences) : String :=
  "- よく利用する交通手段: " ++ String.intercalate ", " p.transportation_types ++ "\n"

/-- The `preference_text` local of
`_create_area_analysis_prompt_personalized` after its two conditional
list appends. -/
def area_preference_text (p : UserPreferences) : String :=
  areaFourLines p ++
  (if p.specific_facilities.isEmpty then "" else areaFacilitiesLine p) ++
  (if p.transportation_types.isEmpty then "" else areaTransportLine p)

/-- `_create_area_analysis_prompt_personalized` -/
def «_create_area_analysis_prompt_personalized»
    (address : String) (p : UserPreferences) : String :=
  "\n住所「" ++ address ++ "」をあなたの好みに合わせて詳細分析します。\n\n" ++
  area_preference_text p ++
  "\n\n【あなた向けカスタム分析】\n上記の好み設定を最重視して、以下の視点で分析してください：\n\n1. あなたが重視する交通手段でのアクセス性\n2. あなたが必要とする施設の充実度\n3. あなたのライフスタイルに合った環境\n4. あなたの予算感覚に見合った価値\n5. 「あなたにとっての」住みやすさ総合評価\n\n分析は「あなたの○○重視の好みにぴったり」「あなたのライフスタイルには」といった個人化された表現で行ってください。\n"

/-! ## Gemini service (src/backend/main.py lines 472-616)

The external generation provider is a parameter `gen` mapping the
composed prompt to either a raised exception (`.error msg`) or a
response carrying candidates with a finish signal.  Each service
function returns its outcome together with the number of calls it made
to the provider. -/

inductive FinishReason
  | STOP
  | MAX_TOKENS
  | SAFETY
  | RECITATION
  | OTHER
deriving DecidableEq, Repr

structure Candidate where
  finish_reason : FinishReason
deriving DecidableEq, Repr

structure GenResponse where
  candidates : List Candidate
  text : String
deriving DecidableEq, Repr

/-- Abnormal stop: the response has no candidates, or the first
candidate's finish signal is not the normal `STOP`. -/
def abnormalStop (resp : GenResponse) : Prop :=
  resp.candidates = [] ∨
    ∃ c cs, resp.candidates = c :: cs ∧ c.finish_reason ≠ FinishReason.STOP

/-- `GeminiService.analyze_image`: 503 before decoding or calling when
the provider is unconfigured, 422 on a base64 decode failure, one
provider call otherwise; non-`STOP` finish or missing candidates yield
the typed 422 `GeminiGenerationStopped`, and any exception raised by
the call itself is converted to a 500 `ImageAnalysisError`. -/
def analyze_image (env : Env) (gen : String → Except String GenResponse)
    (base64_image : String) (preferences : Option UserPreferences) :
    Except ApiError String × Nat :=
  if !(env.vertex_ai_available && env.model_present) then
    (.error ⟨503, "VertexAIUnavailable", "AI分析サービスが利用できません"⟩, 0)
  else
    match env.b64decode base64_image with
    | none =>
      (.error ⟨422, "Base64DecodeError", "画像データの形式が不正です"⟩, 0)
    | some _ =>
      match gen («_create_camera_analysis_prompt» preferences) with
      | .error _ =>
        (.error ⟨500, "ImageAnalysisError", "画像分析中にエラーが発生しました"⟩, 1)
      | .ok resp =>
        match resp.candidates with
        | [] =>
          (.error ⟨422, "GeminiGenerationStopped", "この画像の分析を完了できませんでした"⟩, 1)
        | c :: _ =>
          if c.finish_reason = FinishReason.STOP then (.ok resp.text, 1)
          else
            (.error ⟨422, "GeminiGenerationStopped", "この画像の分析を完了できませんでした"⟩, 1)

/-- `GeminiService.analyze_area_basic`: never raises; degrades to fixed
strings on provider outage, abnormal stop, or a raised exception. -/
def analyze_area_basic (env : Env) (gen : String → Except String GenResponse)
    (address : String) : String × Nat :=
  if !(env.vertex_ai_available && env.model_present) then
    ("現在、エリア分析サービスは利用できません。", 0)
  else
    match gen («_create_area_analysis_prompt_basic» address) with
    | .error e => ("エリア分析中にエラーが発生しました: " ++ e, 1)
    | .ok resp =>
      match resp.candidates with
      | [] => ("申し訳ございませんが、このエリアの分析を完了できませんでした。", 1)
      | c :: _ =>
        if c.finish_reason = FinishReason.STOP then (resp.text, 1)
        else ("申し訳ございませんが、このエリアの分析を完了できませんでした。", 1)

/-- `GeminiService.analyze_area_personalized`: same shape as the basic
variant with its own fixed degradation strings. -/
def analyze_area_personalized (env : Env)
    (gen : String → Except String GenResponse)
    (address : String) (p : UserPreferences) : String × Nat :=
  if !(env.vertex_ai_available && env.model_present) then
    ("現在、個人化エリア分析サービスは利用できません。", 0)
  else
    match gen («_create_area_analysis_prompt_personalized» address p) with
    | .error e => ("個人化エリア分析中にエラーが発生しました: " ++ e, 1)
    | .ok resp =>
      match resp.candidates with
      | [] => ("申し訳ございませんが、このエリアの個人化分析を完了できませんでした。", 1)
      | c :: _ =>
        if c.finish_reason = FinishReason.STOP then (resp.text, 1)
        else ("申し訳ございませんが、このエリアの個人化分析を完了できませんでした。", 1)

/-! ## Endpoints (src/backend/main.py lines 748-992) -/

/-- What `camera_analysis` produced: the HTTP outcome, how many calls
reached the generation provider, and whether the history write landed. -/
structure CameraOutcome where
  result : Except ApiError AnalysisResponse
  geminiCalls : Nat
  savedToHistory : Bool
deriving Repr

/-- `/api/camera-analysis`: authentication is enforced upstream by the
`verify_firebase_token` dependency, so the handler receives a verified
`user`.  `historyWriteOk` is whether the Firestore `doc_ref.set` call
would succeed; its failure is caught and logged only. -/
def camera_analysis (env : Env) (user : Identity) (req : CameraAnalysisRequest)
    (gen : String → Except String GenResponse) (historyWriteOk : Bool)
    (processing_time : Nat) (now : String) : CameraOutcome :=
  if req.image = "" then
    ⟨.error ⟨422, "EmptyImageData", "画像データが空です"⟩, 0, false⟩
  else if 50 * 1024 * 1024 < req.image.length then
    ⟨.error ⟨422, "ImageTooLarge", "画像データが大きすぎます（50MB以下にしてください）"⟩, 0, false⟩
  else
    match analyze_image env gen req.image req.preferences with
    | (.error e, n) => ⟨.error e, n, false⟩
    | (.ok text, n) =>
      let saved := env.firebase_available && env.db_present && historyWriteOk
      ⟨.ok ⟨text, processing_time, req.preferences.isSome, now, some user.uid⟩,
        n, saved⟩

structure AreaOutcome where
  result : Except ApiError AnalysisResponse
  geminiCalls : Nat
deriving Repr

/-- `/api/area-analysis`: tiered authentication; personalized analysis
exactly when `get_optional_auth` yielded a user and the request carried
preferences, basic analysis otherwise. -/
def area_analysis (env : Env) (req : AreaAnalysisRequest)
    (authorization : Option String)
    (gen : String → Except String GenResponse)
    (processing_time : Nat) (now : String) : AreaOutcome :=
  match get_optional_auth env authorization, req.preferences with
  | some u, some p =>
    let r := analyze_area_personalized env gen req.address p
    ⟨.ok ⟨r.1, processing_time, true, now, some u.uid⟩, r.2⟩
  | u, _ =>
    let r := analyze_area_basic env gen req.address
    ⟨.ok ⟨r.1, processing_time, false, now, u.map Identity.uid⟩, r.2⟩

/-- The outcome the Google Maps autocomplete call would deliver were it
reached: predictions, a `googlemaps.exceptions.ApiError`, or any other
raised exception. -/
inductive MapsResult
  | ok (predictions : List String)
  | apiError (msg : String)
  | otherError (msg : String)
deriving DecidableEq, Repr

structure AddressSuggestionsResponse where
  predictions : List String
  status : String
deriving DecidableEq, Repr

/-- `/api/address-suggestions`: 503 before constructing the client or
calling out when the Maps key is not configured. -/
def address_suggestions (env : Env) (_input : String) (maps : MapsResult) :
    Except ApiError AddressSuggestionsResponse × Nat :=
  if !env.google_maps_api_key then
    (.error ⟨503, "GoogleMapsUnavailable", "Google Maps API is not configured"⟩, 0)
  else
    match maps with
    | .ok preds => (.ok ⟨preds, "success"⟩, 1)
    | .apiError _ =>
      (.error ⟨500, "GoogleMapsApiError", "住所候補取得に失敗しました"⟩, 1)
    | .otherError _ =>
      (.error ⟨500, "AddressSuggestionsError", "住所候補取得に失敗しました"⟩, 1)

/-- The outcome the reverse-geocode call would deliver were it reached. -/
inductive GeoResult
  | ok (formatted_address : String)
  | empty
  | apiError (msg : String)
  | otherError (msg : String)
deriving DecidableEq, Repr

/-- `/api/geocoding` (coordinate passthrough elided): 503 before any
external call when the Maps key is not configured. -/
def geocoding (env : Env) (geo : GeoResult) : Except ApiError String × Nat :=
  if !env.google_maps_api_key then
    (.error ⟨503, "GoogleMapsUnavailable", "Google Maps API is not configured"⟩, 0)
  else
    match geo with
    | .ok addr => (.ok addr, 1)
    | .empty => (.error ⟨404, "AddressNotFound", "住所が見つかりませんでした"⟩, 1)
    | .apiError _ =>
      (.error ⟨500, "ReverseGeocodingError", "住所取得に失敗しました"⟩, 1)
    | .otherError _ =>
      (.error ⟨500, "GeocodingError", "住所取得に失敗しました"⟩, 1)

/-! ## String search lemmas -/

theorem chunkLeads_iff (pat xs : List Char) :
    chunkLeads pat xs = true ↔ pat <+: xs := by
  induction pat generalizing xs with
  | nil => simp [chunkLeads]
  | cons a as ih =>
    cases xs with
    | nil => simp [chunkLeads]
    | cons b bs =>
      simp only [chunkLeads, Bool.and_eq_true, beq_iff_eq, ih]
      constructor
      · rintro ⟨rfl, t, ht⟩
        exact ⟨t, by simp [ht]⟩
      · intro h
        rcases h with ⟨t, ht⟩
        injection ht with h1 h2
        exact ⟨h1, ⟨t, h2⟩⟩

theorem chunkInside_iff (pat xs : List Char) :
    chunkInside pat xs = true ↔ pat <:+: xs := by
  induction xs with
  | nil =>
    simp [chunkInside, chunkLeads_iff, List.prefix_nil, List.infix_nil]
  | cons b bs ih =>
    simp [chunkInside, chunkLeads_iff, ih, List.infix_cons_iff]

theorem strContains_iff (s t : String) :
    strContains s t = true ↔ t.data <:+: s.data := by
  simp [strContains, chunkInside_iff]

theorem strContains_of_data_eq (s t : String) (pre post : List Char)
    (h : s.data = pre ++ t.data ++ post) : strContains s t = true := by
  rw [strContains_iff, h]
  exact ⟨pre, post, rfl⟩

theorem mem_of_strContains (s t : String) (c : Char)
    (hc : c ∈ t.data) (h : strContains s t = true) : c ∈ s.data :=
  ((strContains_iff s t).1 h).subset hc

theorem strEnds_of_data_eq (s t : String) (pre : List Char)
    (h : s.data = pre ++ t.data) : strEnds s t = true := by
  unfold strEnds
  rw [h, List.reverse_append, chunkLeads_iff]
  exact ⟨pre.reverse, rfl⟩

theorem strContains_self (t : String) : strContains t t = true :=
  (strContains_iff t t).2 (List.infix_refl t.data)

theorem strContains_left (a b t : String) (h : strContains a t = true) :
    strContains (a ++ b) t = true := by
  rw [strContains_iff] at h ⊢
  rcases h with ⟨s, u, hsu⟩
  exact ⟨s, u ++ b.data, by rw [String.data_append, ← hsu]; simp⟩

theorem strContains_right (a b t : String) (h : strContains b t = true) :
    strContains (a ++ b) t = true := by
  rw [strContains_iff] at h ⊢
  rcases h with ⟨s, u, hsu⟩
  exact ⟨a.data ++ s, u, by rw [String.data_append, ← hsu]; simp⟩

/-! ## Claims -/

/-- Claim C2: `get_optional_auth` never raises: an absent header, a
header missing the Bearer scheme, a verifier failure on the extracted
token, and Firebase unavailability all return `none`, and a successful
verification returns the verified identity. -/
theorem optional_auth_never_raises (env : Env) (a e : String) (d : Identity) :
    get_optional_auth env none = none ∧
    (strLeads a "Bearer " = false → get_optional_auth env (some a) = none) ∧
    (env.firebase_available = false → get_optional_auth env (some a) = none) ∧
    (env.verifier (a.drop 7) = .error e → get_optional_auth env (some a) = none) ∧
    (env.firebase_available = true → strLeads a "Bearer " = true →
      env.verifier (a.drop 7) = .ok d → get_optional_auth env (some a) = some d) := by
  refine ⟨rfl, ?_, ?_, ?_, ?_⟩
  · intro h
    by_cases he : a = "" <;> simp [get_optional_auth, he, h]
  · intro h
    by_cases he : a = "" <;> simp [get_optional_auth, he, h]
  · intro h
    by_cases he : a = ""
    · simp [get_optional_auth, he]
    · by_cases hf : env.firebase_available <;>
        by_cases hb : strLeads a "Bearer " <;>
          simp [get_optional_auth, he, hf, hb, h]
  · intro hf hb hv
    have he : a ≠ "" := by
      intro h0
      rw [h0] at hb
      exact absurd hb (by decide)
    simp [get_optional_auth, he, hf, hb, hv]

/-- Claim C2 witness: concrete evaluations of the five cases. -/
theorem optional_auth_never_raises_witness :
    get_optional_auth
        ⟨true, true, true, true, true, fun t =>
          if t = "tok" then .ok ⟨"u1"⟩ else .error "bad", fun _ => some 0⟩
        (some "Bearer tok") = some ⟨"u1"⟩ := by
  have h := optional_auth_never_raises
    ⟨true, true, true, true, true, fun t =>
      if t = "tok" then .ok ⟨"u1"⟩ else .error "bad", fun _ => some 0⟩
    "Bearer tok" "bad" ⟨"u1"⟩
  exact h.2.2.2.2 rfl (by decide) rfl

/-- Claim C4: on mandatory-auth endpoints an absent credential always
fails with the AuthMissing kind and status 401 (the extraction gate is
modelled from the spec, see `requireAuth`); a credential failing
verification yields the invalid-token 401, and Firebase unavailability
yields ServiceUnavailable with 503. -/
theorem require_auth_error_kinds (env : Env) (t e : String) :
    requireAuth env none = .error ⟨401, "AuthMissing", "Not authenticated"⟩ ∧
    (env.firebase_available = true → env.verifier t = .error e →
      requireAuth env (some t) =
        .error ⟨401, "AuthenticationError", "Invalid authentication token"⟩) ∧
    (env.firebase_available = false →
      requireAuth env (some t) =
        .error ⟨503, "ServiceUnavailable", "Firebase service unavailable"⟩) := by
  refine ⟨rfl, ?_, ?_⟩
  · intro hf hv
    simp [requireAuth, verify_firebase_token, hf, hv]
  · intro hf
    simp [requireAuth, verify_firebase_token, hf]

/-- Claim C4 witness: the three cases at a concrete environment. -/
theorem require_auth_error_kinds_witness :
    requireAuth ⟨true, true, true, true, true, fun _ => .error "expired",
        fun _ => some 0⟩ none =
      .error ⟨401, "AuthMissing", "Not authenticated"⟩ ∧
    requireAuth ⟨true, true, true, true, true, fun _ => .error "expired",
        fun _ => some 0⟩ (some "tok") =
      .error ⟨401, "AuthenticationError", "Invalid authentication token"⟩ ∧
    requireAuth ⟨false, true, true, true, true, fun _ => .error "expired",
        fun _ => some 0⟩ (some "tok") =
      .error ⟨503, "ServiceUnavailable", "Firebase service unavailable"⟩ := by
  refine ⟨?_, ?_, ?_⟩
  · exact (require_auth_error_kinds
      ⟨true, true, true, true, true, fun _ => .error "expired", fun _ => some 0⟩
      "tok" "expired").1
  · exact (require_auth_error_kinds
      ⟨true, true, true, true, true, fun _ => .error "expired", fun _ => some 0⟩
      "tok" "expired").2.1 rfl rfl
  · exact (require_auth_error_kinds
      ⟨false, true, true, true, true, fun _ => .error "expired", fun _ => some 0⟩
      "tok" "expired").2.2 rfl

/-- Claim C10: a camera-analysis request whose image field is the empty
string is rejected with the typed 422 EmptyImageData failure and the
generation provider is never called. -/
theorem empty_image_rejected_before_provider (env : Env) (user : Identity)
    (prefs : Option UserPreferences) (gen : String → Except String GenResponse)
    (hw : Bool) (pt : Nat) (now : String) :
    camera_analysis env user ⟨"", prefs⟩ gen hw pt now =
      ⟨.error ⟨422, "EmptyImageData", "画像データが空です"⟩, 0, false⟩ := by
  rfl

/-- Claim C9: the prompt composers are deterministic pure functions;
identical inputs yield byte-identical instruction text. -/
theorem prompt_composer_deterministic (p q : Option UserPreferences)
    (a b : String) (u v : UserPreferences) (h1 : p = q) (h2 : a = b)
    (h3 : u = v) :
    «_create_camera_analysis_prompt» p = «_create_camera_analysis_prompt» q ∧
    («_create_camera_analysis_prompt» p).data =
      («_create_camera_analysis_prompt» q).data ∧
    «_create_area_analysis_prompt_basic» a =
      «_create_area_analysis_prompt_basic» b ∧
    («_create_area_analysis_prompt_basic» a).data =
      («_create_area_analysis_prompt_basic» b).data ∧
    «_create_area_analysis_prompt_personalized» a u =
      «_create_area_analysis_prompt_personalized» b v ∧
    («_create_area_analysis_prompt_personalized» a u).data =
      («_create_area_analysis_prompt_personalized» b v).data := by
  subst h1 h2 h3
  exact ⟨rfl, rfl, rfl, rfl, rfl, rfl⟩

/-- Claim C9 witness: the composers evaluated twice at one input. -/
theorem prompt_composer_deterministic_witness :
    «_create_camera_analysis_prompt» none = «_create_camera_analysis_prompt» none ∧
    «_create_area_analysis_prompt_basic» "東京駅" =
      «_create_area_analysis_prompt_basic» "東京駅" :=
  ⟨(prompt_composer_deterministic none none "東京駅" "東京駅"
      ⟨5, 2, 4, 1, [], []⟩ ⟨5, 2, 4, 1, [], []⟩ rfl rfl rfl).1,
   (prompt_composer_deterministic none none "東京駅" "東京駅"
      ⟨5, 2, 4, 1, [], []⟩ ⟨5, 2, 4, 1, [], []⟩ rfl rfl rfl).2.2.1⟩

/-- Claim C1: the returned envelope has `is_personalized = true` iff an
identity was resolved and preferences were supplied.  On the area flow
the flag equals `identity present AND preferences present` for every
combination; on the camera flow, where authentication is mandatory
upstream, any successful envelope carries
`is_personalized = preferences present`. -/
theorem isPersonalized_iff_identity_and_prefs (env : Env)
    (req : AreaAnalysisRequest) (authorization : Option String)
    (gen : String → Except String GenResponse) (pt : Nat) (now : String)
    (user : Identity) (creq : CameraAnalysisRequest) (hw : Bool)
    (r : AnalysisResponse) (n : Nat) (s : Bool) :
    ((area_analysis env req authorization gen pt now).result.map
        AnalysisResponse.is_personalized =
      .ok ((get_optional_auth env authorization).isSome &&
        req.preferences.isSome)) ∧
    (camera_analysis env user creq gen hw pt now = ⟨.ok r, n, s⟩ →
      r.is_personalized = creq.preferences.isSome) := by
  constructor
  · unfold area_analysis
    cases hu : get_optional_auth env authorization <;>
      cases hp : req.preferences <;> simp [Except.map]
  · intro h
    unfold camera_analysis at h
    split at h
    · simp at h
    · split at h
      · simp at h
      · split at h
        · simp at h
        · rename_i text m heq
          simp only [CameraOutcome.mk.injEq] at h
          obtain ⟨h1, -, -⟩ := h
          simp only [Except.ok.injEq] at h1
          rw [← h1]

/-- Claim C1 witness: a personalized area run and a successful camera
run at concrete inputs. -/
theorem isPersonalized_iff_identity_and_prefs_witness :
    ((area_analysis
        ⟨true, true, true, true, true, fun _ => .ok ⟨"u1"⟩, fun _ => some 3⟩
        ⟨"大阪", some ⟨5, 2, 4, 1, [], []⟩⟩ (some "Bearer tok")
        (fun _ => .ok ⟨[⟨FinishReason.STOP⟩], "result"⟩) 1 "t0").result.map
      AnalysisResponse.is_personalized = .ok true) ∧
    ((⟨"result", 1, false, "t0", some "u1"⟩ : AnalysisResponse).is_personalized =
      Option.isSome (α := UserPreferences) none) := by
  constructor
  · exact (isPersonalized_iff_identity_and_prefs
      ⟨true, true, true, true, true, fun _ => .ok ⟨"u1"⟩, fun _ => some 3⟩
      ⟨"大阪", some ⟨5, 2, 4, 1, [], []⟩⟩ (some "Bearer tok")
      (fun _ => .ok ⟨[⟨FinishReason.STOP⟩], "result"⟩) 1 "t0"
      ⟨"u1"⟩ ⟨"abc", none⟩ true ⟨"result", 1, false, "t0", some "u1"⟩ 1 true).1
  · exact (isPersonalized_iff_identity_and_prefs
      ⟨true, true, true, true, true, fun _ => .ok ⟨"u1"⟩, fun _ => some 3⟩
      ⟨"大阪", some ⟨5, 2, 4, 1, [], []⟩⟩ (some "Bearer tok")
      (fun _ => .ok ⟨[⟨FinishReason.STOP⟩], "result"⟩) 1 "t0"
      ⟨"u1"⟩ ⟨"abc", none⟩ true ⟨"result", 1, false, "t0", some "u1"⟩ 1 true).2 rfl

/-- Claim C7: the history-store write is best-effort: a write failure
never changes the camera-analysis response, and a successful envelope
always carries the computed analysis, the supplied processing time, the
personalization flag and the timestamp. -/
theorem history_write_best_effort (env : Env) (user : Identity)
    (req : CameraAnalysisRequest) (gen : String → Except String GenResponse)
    (hw : Bool) (pt : Nat) (now : String) (r : AnalysisResponse) :
    ((camera_analysis env user req gen false pt now).result =
      (camera_analysis env user req gen hw pt now).result) ∧
    ((camera_analysis env user req gen false pt now).geminiCalls =
      (camera_analysis env user req gen hw pt now).geminiCalls) ∧
    ((camera_analysis env user req gen hw pt now).result = .ok r →
      (analyze_image env gen req.image req.preferences).1 = .ok r.analysis ∧
      r.processing_time = pt ∧
      r.is_personalized = req.preferences.isSome ∧
      r.timestamp = now ∧
      r.metadata_user_id = some user.uid) := by
  unfold camera_analysis
  split
  · exact ⟨rfl, rfl, by intro h; simp at h⟩
  · split
    · exact ⟨rfl, rfl, by intro h; simp at h⟩
    · split
      · rename_i e n heq
        exact ⟨rfl, rfl, by intro h; simp at h⟩
      · rename_i text n heq
        refine ⟨rfl, rfl, ?_⟩
        intro h
        simp only [Except.ok.injEq] at h
        rw [← h]
        exact ⟨by rw [heq], rfl, rfl, rfl, rfl⟩

/-- Claim C7 witness: a concrete camera run in which the write fails. -/
theorem history_write_best_effort_witness :
    (camera_analysis
        ⟨true, true, true, true, true, fun _ => .ok ⟨"u1"⟩, fun _ => some 3⟩
        ⟨"u1"⟩ ⟨"abc", none⟩
        (fun _ => .ok ⟨[⟨FinishReason.STOP⟩], "result"⟩) false 1 "t0").result =
      (camera_analysis
        ⟨true, true, true, true, true, fun _ => .ok ⟨"u1"⟩, fun _ => some 3⟩
        ⟨"u1"⟩ ⟨"abc", none⟩
        (fun _ => .ok ⟨[⟨FinishReason.STOP⟩], "result"⟩) true 1 "t0").result ∧
    (⟨"result", 1, false, "t0", some "u1"⟩ : AnalysisResponse).processing_time = 1 := by
  constructor
  · exact (history_write_best_effort
      ⟨true, true, true, true, true, fun _ => .ok ⟨"u1"⟩, fun _ => some 3⟩
      ⟨"u1"⟩ ⟨"abc", none⟩
      (fun _ => .ok ⟨[⟨FinishReason.STOP⟩], "result"⟩) true 1 "t0"
      ⟨"result", 1, false, "t0", some "u1"⟩).1
  · exact ((history_write_best_effort
      ⟨true, true, true, true, true, fun _ => .ok ⟨"u1"⟩, fun _ => some 3⟩
      ⟨"u1"⟩ ⟨"abc", none⟩
      (fun _ => .ok ⟨[⟨FinishReason.STOP⟩], "result"⟩) true 1 "t0"
      ⟨"result", 1, false, "t0", some "u1"⟩).2.2 rfl).2.1

/-- Helper: one provider call answered by an abnormal stop degrades the
basic area analysis to its fixed apology string. -/
theorem analyze_area_basic_abnormal (env : Env)
    (gen : String → Except String GenResponse) (address : String)
    (resp : GenResponse) (hva : env.vertex_ai_available = true)
    (hm : env.model_present = true) (habn : abnormalStop resp)
    (hg : gen («_create_area_analysis_prompt_basic» address) = .ok resp) :
    analyze_area_basic env gen address =
      ("申し訳ございませんが、このエリアの分析を完了できませんでした。", 1) := by
  rcases habn with hc | ⟨c, cs, hcs, hne⟩
  · simp [analyze_area_basic, hva, hm, hg, hc]
  · simp [analyze_area_basic, hva, hm, hg, hcs, hne]

/-- Helper: the same degradation for the personalized area analysis. -/
theorem analyze_area_personalized_abnormal (env : Env)
    (gen : String → Except String GenResponse) (address : String)
    (p : UserPreferences) (resp : GenResponse)
    (hva : env.vertex_ai_available = true) (hm : env.model_present = true)
    (habn : abnormalStop resp)
    (hg : gen («_create_area_analysis_prompt_personalized» address p) = .ok resp) :
    analyze_area_personalized env gen address p =
      ("申し訳ございませんが、このエリアの個人化分析を完了できませんでした。", 1) := by
  rcases habn with hc | ⟨c, cs, hcs, hne⟩
  · simp [analyze_area_personalized, hva, hm, hg, hc]
  · simp [analyze_area_personalized, hva, hm, hg, hcs, hne]

/-- Claim C3: when the generative model reports an abnormal stop signal
(finish reason other than normal completion, or no candidates), the
camera flow returns the typed 422 GeminiGenerationStopped error, while
the area flow (basic and personalized alike) returns its fixed apology
string inside an ok (200) envelope. -/
theorem abnormal_stop_camera_errors_area_apologizes (env : Env)
    (user u : Identity) (req : CameraAnalysisRequest)
    (areq : AreaAnalysisRequest) (authorization : Option String)
    (gen : String → Except String GenResponse) (resp : GenResponse)
    (hw : Bool) (pt k : Nat) (now : String)
    (hva : env.vertex_ai_available = true) (hm : env.model_present = true)
    (habn : abnormalStop resp) (himg : req.image ≠ "")
    (hlen : req.image.length ≤ 50 * 1024 * 1024)
    (hdec : env.b64decode req.image = some k)
    (hgc : gen («_create_camera_analysis_prompt» req.preferences) = .ok resp)
    (hgb : gen («_create_area_analysis_prompt_basic» areq.address) = .ok resp)
    (hgp : ∀ q, areq.preferences = some q →
      gen («_create_area_analysis_prompt_personalized» areq.address q) = .ok resp) :
    camera_analysis env user req gen hw pt now =
      ⟨.error ⟨422, "GeminiGenerationStopped",
        "この画像の分析を完了できませんでした"⟩, 1, false⟩ ∧
    (get_optional_auth env authorization = none ∨ areq.preferences = none →
      area_analysis env areq authorization gen pt now =
        ⟨.ok ⟨"申し訳ございませんが、このエリアの分析を完了できませんでした。",
          pt, false, now, (get_optional_auth env authorization).map Identity.uid⟩, 1⟩) ∧
    (∀ q, get_optional_auth env authorization = some u →
      areq.preferences = some q →
      area_analysis env areq authorization gen pt now =
        ⟨.ok ⟨"申し訳ございませんが、このエリアの個人化分析を完了できませんでした。",
          pt, true, now, some u.uid⟩, 1⟩) := by
  have himage : analyze_image env gen req.image req.preferences =
      (.error ⟨422, "GeminiGenerationStopped",
        "この画像の分析を完了できませんでした"⟩, 1) := by
    rcases habn with hc | ⟨c, cs, hcs, hne⟩
    · simp [analyze_image, hva, hm, hdec, hgc, hc]
    · simp [analyze_image, hva, hm, hdec, hgc, hcs, hne]
  refine ⟨?_, ?_, ?_⟩
  · unfold camera_analysis
    rw [if_neg himg, if_neg (Nat.not_lt.mpr hlen), himage]
  · intro hbase
    unfold area_analysis
    rcases hbase with h0 | h0
    · rw [h0]
      cases hp : areq.preferences <;>
        simp [analyze_area_basic_abnormal env gen areq.address resp hva hm habn hgb]
    · rw [h0]
      cases hu : get_optional_auth env authorization <;>
        simp [hu, analyze_area_basic_abnormal env gen areq.address resp hva hm habn hgb]
  · intro q hu hp
    unfold area_analysis
    rw [hu, hp]
    simp [analyze_area_personalized_abnormal env gen areq.address q resp hva hm habn
      (hgp q hp)]

/-- Claim C3 witness: a SAFETY-stopped generation at concrete inputs on
both flows. -/
theorem abnormal_stop_camera_errors_area_apologizes_witness :
    camera_analysis
      ⟨true, true, true, true, true, fun _ => .ok ⟨"u1"⟩, fun _ => some 3⟩
      ⟨"u1"⟩ ⟨"abc", none⟩
      (fun _ => .ok ⟨[⟨FinishReason.SAFETY⟩], "x"⟩) true 1 "t0" =
      ⟨.error ⟨422, "GeminiGenerationStopped",
        "この画像の分析を完了できませんでした"⟩, 1, false⟩ ∧
    area_analysis
      ⟨true, true, true, true, true, fun _ => .ok ⟨"u1"⟩, fun _ => some 3⟩
      ⟨"大阪", none⟩ none
      (fun _ => .ok ⟨[⟨FinishReason.SAFETY⟩], "x"⟩) 1 "t0" =
      ⟨.ok ⟨"申し訳ございませんが、このエリアの分析を完了できませんでした。",
        1, false, "t0", none⟩, 1⟩ := by
  have h := abnormal_stop_camera_errors_area_apologizes
    ⟨true, true, true, true, true, fun _ => .ok ⟨"u1"⟩, fun _ => some 3⟩
    ⟨"u1"⟩ ⟨"u1"⟩ ⟨"abc", none⟩ ⟨"大阪", none⟩ none
    (fun _ => .ok ⟨[⟨FinishReason.SAFETY⟩], "x"⟩)
    ⟨[⟨FinishReason.SAFETY⟩], "x"⟩ true 1 3 "t0"
    rfl rfl (Or.inr ⟨⟨FinishReason.SAFETY⟩, [], rfl, by decide⟩)
    (by decide) (by decide) rfl rfl rfl (fun q hq => nomatch hq)
  exact ⟨h.1, h.2.1 (Or.inl rfl)⟩

/-- Claim C6: an image payload whose decoded size exceeds the 50 MiB
maximum is rejected with the typed 422 size failure before any call to
the generation provider (the call count stays zero).  `hb64` is the
base64 arithmetic fact that decoding never enlarges the payload. -/
theorem oversize_image_rejected_before_provider (env : Env) (user : Identity)
    (req : CameraAnalysisRequest) (gen : String → Except String GenResponse)
    (hw : Bool) (pt : Nat) (now : String) (decodedLen : Nat)
    (_hdec : env.b64decode req.image = some decodedLen)
    (hb64 : decodedLen ≤ req.image.length)
    (hbig : 50 * 1024 * 1024 < decodedLen) :
    camera_analysis env user req gen hw pt now =
      ⟨.error ⟨422, "ImageTooLarge",
        "画像データが大きすぎます（50MB以下にしてください）"⟩, 0, false⟩ := by
  have hlen : 50 * 1024 * 1024 < req.image.length := lt_of_lt_of_le hbig hb64
  have hne : req.image ≠ "" := by
    intro h0
    rw [h0] at hlen
    exact absurd hlen (by decide)
  unfold camera_analysis
  rw [if_neg hne, if_pos hlen]

/-- Claim C6 witness: a payload of 69905068 base64 characters decoding
to 52428801 bytes (just above the 50 MiB bound) is rejected with zero
provider calls. -/
theorem oversize_image_rejected_before_provider_witness :
    camera_analysis
      ⟨true, true, true, true, true, fun _ => .ok ⟨"u1"⟩,
        fun s => some (3 * (s.length / 4))⟩
      ⟨"u1"⟩ ⟨String.mk (List.replicate 69905068 'a'), none⟩
      (fun _ => .ok ⟨[⟨FinishReason.STOP⟩], "r"⟩) true 1 "t0" =
      ⟨.error ⟨422, "ImageTooLarge",
        "画像データが大きすぎます（50MB以下にしてください）"⟩, 0, false⟩ := by
  have h1 : (String.mk (List.replicate 69905068 'a')).length = 69905068 := by
    show (List.replicate 69905068 'a').length = 69905068
    exact List.length_replicate 69905068 'a'
  have key : ∀ s : String, s.length = 69905068 →
      camera_analysis
        ⟨true, true, true, true, true, fun _ => .ok ⟨"u1"⟩,
          fun x => some (3 * (x.length / 4))⟩
        ⟨"u1"⟩ ⟨s, none⟩
        (fun _ => .ok ⟨[⟨FinishReason.STOP⟩], "r"⟩) true 1 "t0" =
        ⟨.error ⟨422, "ImageTooLarge",
          "画像データが大きすぎます（50MB以下にしてください）"⟩, 0, false⟩ := by
    intro s hs
    refine oversize_image_rejected_before_provider _ _ _ _ _ _ _ 52428801 ?_ ?_ ?_
    · show some (3 * (s.length / 4)) = some 52428801
      rw [hs]
    · show (52428801 : Nat) ≤ s.length
      rw [hs]
      norm_num
    · norm_num
  exact key (String.mk (List.replicate 69905068 'a')) h1

/-- Claim C8 counterexample: with the AI provider unavailable, the area
flow does not abort with a 503 ProviderUnavailable failure; at this
concrete request it returns an ok (200) envelope carrying the fixed
unavailable-message, so the claim is false for the area flow. -/
theorem area_unavailable_returns_ok_not_503 :
    area_analysis
      ⟨true, true, false, false, true, fun _ => .ok ⟨"u1"⟩, fun _ => some 3⟩
      ⟨"大阪", none⟩ none (fun _ => .ok ⟨[⟨FinishReason.STOP⟩], "r"⟩) 1 "t0" =
      ⟨.ok ⟨"現在、エリア分析サービスは利用できません。", 1, false, "t0", none⟩, 0⟩ ∧
    (area_analysis
      ⟨true, true, false, false, true, fun _ => .ok ⟨"u1"⟩, fun _ => some 3⟩
      ⟨"大阪", none⟩ none (fun _ => .ok ⟨[⟨FinishReason.STOP⟩], "r"⟩) 1 "t0").result ≠
      .error ⟨503, "VertexAIUnavailable", "AI分析サービスが利用できません"⟩ := by
  have hr : (area_analysis
      ⟨true, true, false, false, true, fun _ => .ok ⟨"u1"⟩, fun _ => some 3⟩
      ⟨"大阪", none⟩ none (fun _ => .ok ⟨[⟨FinishReason.STOP⟩], "r"⟩) 1 "t0").result =
      .ok ⟨"現在、エリア分析サービスは利用できません。", 1, false, "t0", none⟩ := rfl
  refine ⟨rfl, ?_⟩
  rw [hr]
  intro h
  exact Except.noConfusion h

/-- Claim C8 (amended): when a required provider is not configured, the
camera flow and the maps-backed endpoints abort with a 503
ProviderUnavailable failure before any external call is attempted,
while the area flow — designed to stay 200 — instead returns an ok
envelope carrying a fixed unavailable-message, likewise with zero
provider calls. -/
theorem provider_unavailable_before_external_call (env : Env)
    (user : Identity) (req : CameraAnalysisRequest)
    (areq : AreaAnalysisRequest) (authorization : Option String)
    (gen : String → Except String GenResponse) (hw : Bool) (pt : Nat)
    (now inp : String) (maps : MapsResult) (geo : GeoResult)
    (hva : env.vertex_ai_available = false)
    (hkey : env.google_maps_api_key = false) (himg : req.image ≠ "")
    (hlen : req.image.length ≤ 50 * 1024 * 1024) :
    camera_analysis env user req gen hw pt now =
      ⟨.error ⟨503, "VertexAIUnavailable", "AI分析サービスが利用できません"⟩, 0, false⟩ ∧
    address_suggestions env inp maps =
      (.error ⟨503, "GoogleMapsUnavailable", "Google Maps API is not configured"⟩, 0) ∧
    geocoding env geo =
      (.error ⟨503, "GoogleMapsUnavailable", "Google Maps API is not configured"⟩, 0) ∧
    (area_analysis env areq authorization gen pt now).geminiCalls = 0 ∧
    (∃ r, (area_analysis env areq authorization gen pt now).result = .ok r ∧
      (r.analysis = "現在、エリア分析サービスは利用できません。" ∨
        r.analysis = "現在、個人化エリア分析サービスは利用できません。")) := by
  have hbasic : analyze_area_basic env gen areq.address =
      ("現在、エリア分析サービスは利用できません。", 0) := by
    simp [analyze_area_basic, hva]
  have hpers : ∀ q, analyze_area_personalized env gen areq.address q =
      ("現在、個人化エリア分析サービスは利用できません。", 0) := by
    intro q
    simp [analyze_area_personalized, hva]
  refine ⟨?_, ?_, ?_, ?_, ?_⟩
  · have himage : analyze_image env gen req.image req.preferences =
        (.error ⟨503, "VertexAIUnavailable", "AI分析サービスが利用できません"⟩, 0) := by
      simp [analyze_image, hva]
    unfold camera_analysis
    rw [if_neg himg, if_neg (Nat.not_lt.mpr hlen), himage]
  · simp [address_suggestions, hkey]
  · simp [geocoding, hkey]
  · unfold area_analysis
    cases hu : get_optional_auth env authorization <;>
      cases hp : areq.preferences <;> simp [hbasic, hpers]
  · unfold area_analysis
    cases hu : get_optional_auth env authorization <;>
      cases hp : areq.preferences <;> simp [hbasic, hpers]

/-- Claim C8 amended witness: both providers unconfigured at concrete
inputs on all four operations. -/
theorem provider_unavailable_before_external_call_witness :
    camera_analysis
      ⟨true, true, false, false, false, fun _ => .ok ⟨"u1"⟩, fun _ => some 3⟩
      ⟨"u1"⟩ ⟨"abc", none⟩ (fun _ => .ok ⟨[⟨FinishReason.STOP⟩], "r"⟩) true 1 "t0" =
      ⟨.error ⟨503, "VertexAIUnavailable", "AI分析サービスが利用できません"⟩, 0, false⟩ ∧
    address_suggestions
      ⟨true, true, false, false, false, fun _ => .ok ⟨"u1"⟩, fun _ => some 3⟩
      "東京" (.ok []) =
      (.error ⟨503, "GoogleMapsUnavailable", "Google Maps API is not configured"⟩, 0) := by
  have h := provider_unavailable_before_external_call
    ⟨true, true, false, false, false, fun _ => .ok ⟨"u1"⟩, fun _ => some 3⟩
    ⟨"u1"⟩ ⟨"abc", none⟩ ⟨"大阪", none⟩ none
    (fun _ => .ok ⟨[⟨FinishReason.STOP⟩], "r"⟩) true 1 "t0" "東京"
    (.ok []) (.ok "addr") rfl rfl (by decide) (by decide)
  exact ⟨h.1, h.2.1⟩

/-- Helper: a rendered personalized-area category line ends in the
most-important flag exactly when its weight is at least 4. -/
theorem areaPriorityLine_flag_iff (label : String) (w : Nat) :
    strEnds (areaPriorityLine label w) "(最重要)\n" = true ↔ 4 ≤ w := by
  by_cases h4 : 4 ≤ w
  · simp only [h4, iff_true]
    refine strEnds_of_data_eq _ _ ("- " ++ label ++ ": " ++ toString w ++ "/5 ").data ?_
    have hflag : areaFlag w = "(最重要)" := by simp [areaFlag, h4]
    have hsplit : ("(最重要)\n" : String).data =
        ("(最重要)" : String).data ++ ("\n" : String).data := rfl
    simp [areaPriorityLine, hflag, hsplit, String.data_append, List.append_assoc]
  · simp only [h4, iff_false]
    intro h
    have hflag : areaFlag w = "" := by simp [areaFlag, h4]
    have hd1 : ("/5 " : String).data = ['/', '5', ' '] := rfl
    have hdn : ("\n" : String).data = ['\n'] := rfl
    have hde : ("" : String).data = ([] : List Char) := rfl
    have hrev : (areaPriorityLine label w).data.reverse =
        '\n' :: ' ' :: '5' :: '/' ::
          ("- " ++ label ++ ": " ++ toString w).data.reverse := by
      simp [areaPriorityLine, hflag, hd1, hdn, hde, String.data_append]
    have ht : ("(最重要)\n" : String).data.reverse =
        ['\n', ')', '要', '重', '最', '('] := rfl
    unfold strEnds at h
    rw [ht, hrev] at h
    revert h
    simp only [chunkLeads, Bool.and_eq_true, beq_iff_eq]
    intro h
    exact absurd h.2.1 (by decide)

/-- Helper: a weight within the pydantic 1..5 bound renders as a single
decimal digit, so its text contains no flag character. -/
theorem flag_char_not_in_weight_digits (w : Nat) (h1 : 1 ≤ w) (h2 : w ≤ 5) :
    '最' ∉ (toString w).data := by
  interval_cases w <;> decide

/-- Helper: the appended specific-facilities line is never the empty
string. -/
theorem areaFacilitiesLine_ne_empty (p : UserPreferences) :
    areaFacilitiesLine p ≠ "" := by
  intro h0
  have h2 := congrArg String.length h0
  rw [areaFacilitiesLine, String.length_append, String.length_append] at h2
  have ha : 0 < ("- 特に重視する施設: " : String).length := by decide
  have hb : ("" : String).length = 0 := rfl
  omega

/-- Helper: the appended transportation-modes line is never the empty
string. -/
theorem areaTransportLine_ne_empty (p : UserPreferences) :
    areaTransportLine p ≠ "" := by
  intro h0
  have h2 := congrArg String.length h0
  rw [areaTransportLine, String.length_append, String.length_append] at h2
  have ha : 0 < ("- よく利用する交通手段: " : String).length := by decide
  have hb : ("" : String).length = 0 := rfl
  omega

set_option maxRecDepth 20000 in
/-- Claim C5 counterexample: the camera composition does not flag large
weights: with every weight equal to 5 the rendered personalized camera
prompt contains no most-important flag text at all, so "each of the
four weight categories whose weight is >= 4 is flagged" fails on the
camera flow. -/
theorem camera_prompt_weight_not_flagged :
    4 ≤ (5 : Nat) ∧
    strContains («_create_camera_analysis_prompt» (some ⟨5, 5, 5, 5, [], []⟩))
      "最重要" = false := by
  constructor
  · norm_num
  · rfl

/-- Claim C5 (amended): in the area composition each of the four weight
categories' rendered lines ends in the most-important flag iff its
weight is >= 4, each of those lines occurs in the rendered personalized
area prompt, and the preference block appends the specific-facilities
and transportation-modes lines exactly when those lists are non-empty;
the camera composition renders the four weights with no most-important
flag and no such lists. -/
theorem area_prompt_flags_weights_camera_does_not (p : UserPreferences)
    (addr : String) (hv : validPrefs p) :
    ((strEnds (areaPriorityLine "交通利便性" p.transportation_priority)
        "(最重要)\n" = true ↔ 4 ≤ p.transportation_priority) ∧
     (strEnds (areaPriorityLine "周辺施設" p.facilities_priority)
        "(最重要)\n" = true ↔ 4 ≤ p.facilities_priority) ∧
     (strEnds (areaPriorityLine "ライフスタイル" p.lifestyle_priority)
        "(最重要)\n" = true ↔ 4 ≤ p.lifestyle_priority) ∧
     (strEnds (areaPriorityLine "予算" p.budget_priority)
        "(最重要)\n" = true ↔ 4 ≤ p.budget_priority)) ∧
    (strContains («_create_area_analysis_prompt_personalized» addr p)
        (areaPriorityLine "交通利便性" p.transportation_priority) = true ∧
     strContains («_create_area_analysis_prompt_personalized» addr p)
        (areaPriorityLine "周辺施設" p.facilities_priority) = true ∧
     strContains («_create_area_analysis_prompt_personalized» addr p)
        (areaPriorityLine "ライフスタイル" p.lifestyle_priority) = true ∧
     strContains («_create_area_analysis_prompt_personalized» addr p)
        (areaPriorityLine "予算" p.budget_priority) = true) ∧
    (∃ facPart ttPart : String,
      area_preference_text p = areaFourLines p ++ facPart ++ ttPart ∧
      (facPart = "" ↔ p.specific_facilities = []) ∧
      (ttPart = "" ↔ p.transportation_types = []) ∧
      (p.specific_facilities ≠ [] → facPart = areaFacilitiesLine p) ∧
      (p.transportation_types ≠ [] → ttPart = areaTransportLine p)) ∧
    strContains («_create_camera_analysis_prompt» (some p)) "最重要" = false := by
  obtain ⟨ht1, ht2, hf1, hf2, hl1, hl2, hb1, hb2⟩ := hv
  have occT : strContains (areaFourLines p)
      (areaPriorityLine "交通利便性" p.transportation_priority) = true := by
    unfold areaFourLines
    exact strContains_left _ _ _ (strContains_left _ _ _ (strContains_left _ _ _
      (strContains_right _ _ _ (strContains_self _))))
  have occF : strContains (areaFourLines p)
      (areaPriorityLine "周辺施設" p.facilities_priority) = true := by
    unfold areaFourLines
    exact strContains_left _ _ _ (strContains_left _ _ _
      (strContains_right _ _ _ (strContains_self _)))
  have occL : strContains (areaFourLines p)
      (areaPriorityLine "ライフスタイル" p.lifestyle_priority) = true := by
    unfold areaFourLines
    exact strContains_left _ _ _ (strContains_right _ _ _ (strContains_self _))
  have occB : strContains (areaFourLines p)
      (areaPriorityLine "予算" p.budget_priority) = true := by
    unfold areaFourLines
    exact strContains_right _ _ _ (strContains_self _)
  have lift : ∀ t : String, strContains (areaFourLines p) t = true →
      strContains («_create_area_analysis_prompt_personalized» addr p) t = true := by
    intro t h
    unfold «_create_area_analysis_prompt_personalized» area_preference_text
    exact strContains_left _ _ _ (strContains_right _ _ _
      (strContains_left _ _ _ (strContains_left _ _ _ h)))
  refine ⟨⟨areaPriorityLine_flag_iff _ _, areaPriorityLine_flag_iff _ _,
      areaPriorityLine_flag_iff _ _, areaPriorityLine_flag_iff _ _⟩,
    ⟨lift _ occT, lift _ occF, lift _ occL, lift _ occB⟩, ?_, ?_⟩
  · refine ⟨(if p.specific_facilities.isEmpty then "" else areaFacilitiesLine p),
        (if p.transportation_types.isEmpty then "" else areaTransportLine p),
        rfl, ?_, ?_, ?_, ?_⟩
    · cases hsf : p.specific_facilities with
      | nil => simp
      | cons a as => simp [areaFacilitiesLine_ne_empty p]
    · cases htt : p.transportation_types with
      | nil => simp
      | cons a as => simp [areaTransportLine_ne_empty p]
    · intro h
      cases hsf : p.specific_facilities with
      | nil => exact absurd hsf h
      | cons a as => simp
    · intro h
      cases htt : p.transportation_types with
      | nil => exact absurd htt h
      | cons a as => simp
  · have k0 : '最' ∉ (cameraBasePrompt).data := by decide
    have kc1 : '最' ∉
        ("\n【個人化分析】\nユーザーの好み設定：\n- 交通利便性重要度: " : String).data := by
      decide
    have kc2 : '最' ∉ ("/5\n- 周辺施設重要度: " : String).data := by decide
    have kc3 : '最' ∉ ("/5  \n- ライフスタイル重要度: " : String).data := by decide
    have kc4 : '最' ∉ ("/5\n- 予算重要度: " : String).data := by decide
    have kc5 : '最' ∉
        ("/5\n\nこの好み設定を考慮して、「あなたの価値観に合った」観点から物件を評価してください。\n" : String).data := by
      decide
    have kT := flag_char_not_in_weight_digits _ ht1 ht2
    have kF := flag_char_not_in_weight_digits _ hf1 hf2
    have kL := flag_char_not_in_weight_digits _ hl1 hl2
    have kB := flag_char_not_in_weight_digits _ hb1 hb2
    have hmem : '最' ∉ («_create_camera_analysis_prompt» (some p)).data := by
      intro hc
      simp only [«_create_camera_analysis_prompt», String.data_append,
        List.mem_append] at hc
      simp [k0, kc1, kc2, kc3, kc4, kc5, kT, kF, kL, kB] at hc
    cases hcc : strContains («_create_camera_analysis_prompt» (some p)) "最重要"
    · rfl
    · exact absurd (mem_of_strContains _ _ '最' (by decide) hcc) hmem

/-- Claim C5 amended witness: the transportation weight 5 is flagged in
its rendered area line, that line occurs in the rendered prompt, and
the same preferences leave the camera prompt flag-free. -/
theorem area_prompt_flags_weights_camera_does_not_witness :
    (strEnds (areaPriorityLine "交通利便性" 5) "(最重要)\n" = true ↔ 4 ≤ (5 : Nat)) ∧
    strContains
      («_create_area_analysis_prompt_personalized» "東京駅" ⟨5, 2, 4, 1, [], []⟩)
      (areaPriorityLine "交通利便性" 5) = true ∧
    strContains («_create_camera_analysis_prompt» (some ⟨5, 2, 4, 1, [], []⟩))
      "最重要" = false := by
  have h := area_prompt_flags_weights_camera_does_not ⟨5, 2, 4, 1, [], []⟩ "東京駅"
    (by decide)
  exact ⟨h.1.1, h.2.1.1, h.2.2.2⟩

end Maisoku
